import Mathlib

/-!
Shallow embedding of the cpp-rust-ffi-demo repository (src/cpp-app).

The C++ domain model (person.h), the bridge accessor layer (person.cpp) and
the Variant A demo orchestrator (main.cpp) are embedded as pure Lean
functions.  C++ `double` values are modelled as exact rationals (`Rat`);
`uint32_t` as `Nat` (no arithmetic is performed on ages, so no wraparound
can occur); `std::string` as `String`.  Objects held through
`shared_ptr` are modelled by value: the claims under study concern which
fields an operation reads or replaces, which the value model captures
exactly, since no operation in the source ever reseats a `shared_ptr`
after construction.

The Rust analysis component (rust-lib) is not part of the reviewed source;
the definitions for it below are modelled from the spec and say so in
their doc comments, leaving unspecified parts (BMI category thresholds,
risk formulas, validation rules) parametric rather than invented.
-/

namespace CppApp

/-- Address class from person.h: three string fields. -/
structure Address where
  street_ : String
  city_ : String
  postal_code_ : String
deriving Repr, DecidableEq

/-- Getter `street()`. -/
def Address.street (a : Address) : String := a.street_

/-- Getter `city()`. -/
def Address.city (a : Address) : String := a.city_

/-- Getter `postal_code()`. -/
def Address.postal_code (a : Address) : String := a.postal_code_

/-- Setter `set_street`: replaces only the street field. -/
def Address.set_street (a : Address) (street : String) : Address :=
  { a with street_ := street }

/-- Setter `set_city`: replaces only the city field. -/
def Address.set_city (a : Address) (city : String) : Address :=
  { a with city_ := city }

/-- Setter `set_postal_code`: replaces only the postal code field. -/
def Address.set_postal_code (a : Address) (postal_code : String) : Address :=
  { a with postal_code_ := postal_code }

/-- ContactInfo class from person.h: email, phone and a shared Address. -/
structure ContactInfo where
  email_ : String
  phone_ : String
  address_ : Address
deriving Repr, DecidableEq

/-- Getter `email()`. -/
def ContactInfo.email (c : ContactInfo) : String := c.email_

/-- Getter `phone()`. -/
def ContactInfo.phone (c : ContactInfo) : String := c.phone_

/-- Getter `address()`: read access to the referenced Address. -/
def ContactInfo.address (c : ContactInfo) : Address := c.address_

/-- Getter `address_ptr()`: the shareable reference itself. -/
def ContactInfo.address_ptr (c : ContactInfo) : Address := c.address_

/-- Setter `set_email`: replaces only the email field. -/
def ContactInfo.set_email (c : ContactInfo) (email : String) : ContactInfo :=
  { c with email_ := email }

/-- Setter `set_phone`: replaces only the phone field. -/
def ContactInfo.set_phone (c : ContactInfo) (phone : String) : ContactInfo :=
  { c with phone_ := phone }

/-- Person class from person.h: age (uint32_t), height (double), name,
and a shared ContactInfo. -/
structure Person where
  age_ : Nat
  height_ : Rat
  name_ : String
  contact_ : ContactInfo
deriving Repr, DecidableEq

/-- Getter `age()`. -/
def Person.age (p : Person) : Nat := p.age_

/-- Getter `height()`. -/
def Person.height (p : Person) : Rat := p.height_

/-- Getter `name()`. -/
def Person.name (p : Person) : String := p.name_

/-- Getter `contact()`: read access to the referenced ContactInfo. -/
def Person.contact (p : Person) : ContactInfo := p.contact_

/-- Setter `set_age`: replaces only the age field. -/
def Person.set_age (p : Person) (age : Nat) : Person :=
  { p with age_ := age }

/-- Setter `set_height`: replaces only the height field. -/
def Person.set_height (p : Person) (height : Rat) : Person :=
  { p with height_ := height }

/-- Setter `set_name`: replaces only the name field. -/
def Person.set_name (p : Person) (name : String) : Person :=
  { p with name_ := name }

/-- Business-logic query `is_adult()`: `age_ >= 18`. -/
def Person.is_adult (p : Person) : Bool := decide (18 ≤ p.age_)

/-- Business-logic method `calculate_bmi(weight_kg)`: returns 0.0 when
`height_ <= 0.0`, otherwise `weight_kg / (height_ * height_)`. -/
def Person.calculate_bmi (p : Person) (weight_kg : Rat) : Rat :=
  if p.height_ ≤ 0 then 0 else weight_kg / (p.height_ * p.height_)

/-- Factory `create_address` from person.cpp. -/
def create_address (street city postal_code : String) : Address :=
  Address.mk street city postal_code

/-- Factory `create_contact_info` from person.cpp. -/
def create_contact_info (email phone : String) (address : Address) : ContactInfo :=
  ContactInfo.mk email phone address

/-- Factory `create_person` from person.cpp. -/
def create_person (age : Nat) (height : Rat) (name : String) (contact : ContactInfo) : Person :=
  Person.mk age height name contact

/-- Bridge getter `get_person_age` from person.cpp: forwards to `age()`. -/
def get_person_age (person : Person) : Nat := person.age

/-- Bridge getter `get_person_height`: forwards to `height()`. -/
def get_person_height (person : Person) : Rat := person.height

/-- Bridge getter `get_person_name`: forwards to `name()`. -/
def get_person_name (person : Person) : String := person.name

/-- Bridge getter `get_person_contact`: forwards to `contact()`. -/
def get_person_contact (person : Person) : ContactInfo := person.contact

/-- Bridge getter `get_contact_email`: forwards to `email()`. -/
def get_contact_email (contact : ContactInfo) : String := contact.email

/-- Bridge getter `get_contact_phone`: forwards to `phone()`. -/
def get_contact_phone (contact : ContactInfo) : String := contact.phone

/-- Bridge getter `get_contact_address`: forwards to `address()`. -/
def get_contact_address (contact : ContactInfo) : Address := contact.address

/-- Bridge getter `get_address_street`: forwards to `street()`. -/
def get_address_street (address : Address) : String := address.street

/-- Bridge getter `get_address_city`: forwards to `city()`. -/
def get_address_city (address : Address) : String := address.city

/-- Bridge getter `get_address_postal_code`: forwards to `postal_code()`. -/
def get_address_postal_code (address : Address) : String := address.postal_code

/-- PersonInfo bridge result struct (shape fixed by the spec's boundary
contract): name_length, city, is_adult, and a small integer category code. -/
structure PersonInfo where
  name_length : Nat
  city : String
  is_adult : Bool
  bmi_category : Int
deriving Repr, DecidableEq

/-- HealthAnalysis bridge result struct (shape fixed by the spec's
boundary contract). -/
structure HealthAnalysis where
  bmi : Rat
  risk_score : Rat
  city_risk_factor : Rat
  recommendation : String
deriving Repr, DecidableEq

/-- Modelled from the spec: the analysis component's `greet_person`
(rust-lib source is not under src/); it returns the character length of
the given name. -/
def greet_person (name : String) : Nat := name.length

/-- Modelled from the spec: the analysis component's direct
`calculate_bmi(weight_kg, height_m)` (rust-lib source is not under src/);
the spec says it is the same body-mass-index formula as the Person
method, `weight / height^2` guarded to 0 for non-positive height. -/
def rust_calculate_bmi (weight_kg height_m : Rat) : Rat :=
  if height_m ≤ 0 then 0 else weight_kg / (height_m * height_m)

/-- Modelled from the spec: the analysis component's `process_person`
(rust-lib source is not under src/).  It computes the name's character
count, copies the city from the person's nested contact address, computes
the adult flag (age ≥ 18), and classifies BMI into a category code whose
thresholds the spec leaves unspecified; the classifier is therefore a
parameter rather than an invented rule. -/
def process_person (classify_bmi : Person → Int) (p : Person) : PersonInfo :=
  { name_length := (Person.name p).length
    city := Address.city (ContactInfo.address (Person.contact p))
    is_adult := Person.is_adult p
    bmi_category := classify_bmi p }

/-- BMI category rendering from print_person_info in main.cpp: the switch
on info.bmi_category with cases 0, 1, 2 and a default. -/
def bmi_category_label (code : Int) : String :=
  if code = 0 then "Underweight"
  else if code = 1 then "Normal"
  else if code = 2 then "Overweight"
  else "Unknown"

/-- Adult-flag rendering from print_person_info in main.cpp: the ternary
`info.is_adult ? "Yes" : "No"`. -/
def adult_label (b : Bool) : String := if b then "Yes" else "No"

/-- The helper print_person_info from main.cpp, modelled as the list of
lines it writes to standard output. -/
def print_person_info (info : PersonInfo) (name : String) : List String :=
  [ "=== Person Information (from Rust analysis) ===",
    "Name: " ++ name,
    "Name length: " ++ toString info.name_length,
    "City: " ++ info.city,
    "Is adult: " ++ adult_label info.is_adult,
    "BMI category: " ++ bmi_category_label info.bmi_category,
    "============================================" ]

/-- The helper print_health_analysis from main.cpp, modelled as the list
of lines it writes to standard output. -/
def print_health_analysis (analysis : HealthAnalysis) (name : String) : List String :=
  [ "=== Health Analysis for " ++ name ++ " (Rust) ===",
    "BMI: " ++ toString analysis.bmi,
    "Risk Score: " ++ toString analysis.risk_score,
    "City Risk Factor: " ++ toString analysis.city_risk_factor,
    "Recommendation: " ++ analysis.recommendation,
    "============================================" ]

/-- The first demo Address from main.cpp: ("123 Main St", "New York", "10001"). -/
def addr1 : Address := Address.mk "123 Main St" "New York" "10001"

/-- The first demo ContactInfo from main.cpp, referencing addr1. -/
def contact1 : ContactInfo := ContactInfo.mk "bob@example.com" "555-1234" addr1

/-- The first demo Person from main.cpp: Bob Johnson, age 25, height 1.75. -/
def person1 : Person := Person.mk 25 (7/4) "Bob Johnson" contact1

/-- The second demo Address from main.cpp: ("456 Oak Ave", "Boston", "02101"). -/
def addr2 : Address := Address.mk "456 Oak Ave" "Boston" "02101"

/-- The second demo ContactInfo from main.cpp, referencing addr2. -/
def contact2 : ContactInfo := ContactInfo.mk "charlie@example.com" "555-5678" addr2

/-- The second demo Person from main.cpp: Charlie Smith, age 16, height 1.60. -/
def person2 : Person := Person.mk 16 (8/5) "Charlie Smith" contact2

/-- The invalid-contact demo Address from main.cpp: ("", "", "123"). -/
def bad_addr : Address := Address.mk "" "" "123"

/-- The invalid-contact demo ContactInfo from main.cpp. -/
def bad_contact : ContactInfo := ContactInfo.mk "bademail" "123" bad_addr

/-- The invalid-contact demo Person from main.cpp: Invalid User, age 30,
height 1.80. -/
def person3 : Person := Person.mk 30 (9/5) "Invalid User" bad_contact

/-- Renders a validity flag the way main.cpp does. -/
def valid_label (b : Bool) : String := if b then "VALID ✓" else "INVALID ✗"

/-- The Variant A demo orchestrator, main() from main.cpp, modelled as a
pure function from the analysis component's unspecified pieces (BMI
classifier, health analyzer, contact validator — all external Rust code)
to the transcript it prints and the exit status it returns.  The body
mirrors the straight-line sequence of main(): examples 1 through 9
followed by the closing banner and `return 0`. -/
def cpp_main (classify_bmi : Person → Int)
    (analyze_health : Person → Rat → HealthAnalysis)
    (validate_contact : ContactInfo → Bool) : List String × Nat :=
  let length := greet_person "Alice"
  let info1 := process_person classify_bmi person1
  let health1 := analyze_health person1 75
  let info2 := process_person classify_bmi person2
  let health2 := analyze_health person2 55
  let valid1 := validate_contact (Person.contact person1)
  let valid2 := validate_contact (Person.contact person2)
  let valid3 := validate_contact (Person.contact person3)
  let bmi := rust_calculate_bmi 70 (7/4)
  let addr3 := create_address "789 Pine Rd" "San Francisco" "94102"
  let lines :=
    [ "C++ ↔ Rust FFI Demo with Opaque C++ Types",
      "--- Example 1: String Handling ---",
      "Returned name length: " ++ toString length,
      "--- Example 2: C++ Objects → Rust Processing ---",
      "Created C++ Person: " ++ Person.name person1,
      "Age: " ++ toString (Person.age person1) ++ ", Height: " ++
        toString (Person.height person1) ++ "m",
      "City: " ++ Address.city (ContactInfo.address (Person.contact person1)),
      "Sending to Rust for analysis..." ] ++
    print_person_info info1 (Person.name person1) ++
    [ "--- Example 3: Advanced Health Analysis (New Rust Feature) ---" ] ++
    print_health_analysis health1 (Person.name person1) ++
    [ "--- Example 4: Minor Person Analysis ---",
      "Created C++ Person: " ++ Person.name person2 ] ++
    print_person_info info2 (Person.name person2) ++
    print_health_analysis health2 (Person.name person2) ++
    [ "--- Example 5: Contact Validation (Rust) ---",
      Person.name person1 ++ "\x27s contact is " ++ valid_label valid1,
      Person.name person2 ++ "\x27s contact is " ++ valid_label valid2,
      "--- Example 6: Testing Invalid Contact ---",
      Person.name person3 ++ "\x27s contact is " ++ valid_label valid3,
      "--- Example 7: Direct BMI Calculation (Pure Rust) ---",
      "BMI for 70kg, 1.75m: " ++ toString bmi,
      "--- Example 8: C++ Methods + Rust Functions ---",
      "Bob\x27s age (C++ method): " ++ toString (Person.age person1),
      "Bob is adult (C++ method): " ++ adult_label (Person.is_adult person1),
      "Bob\x27s BMI from C++ method: " ++ toString (Person.calculate_bmi person1 75),
      "Bob\x27s BMI from Rust function: " ++
        toString (rust_calculate_bmi 75 (Person.height person1)),
      "--- Example 9: Using Factory Functions ---",
      "Created address: " ++ Address.city addr3,
      "✅ Demo completed successfully!" ]
  (lines, 0)

/-- Mutation steps available on a ContactInfo (the only setters the class
declares: set_email and set_phone; there is no setter for the address
reference). -/
inductive ContactOp where
  | setEmail (email : String)
  | setPhone (phone : String)
deriving Repr, DecidableEq

/-- Apply one setter call to a ContactInfo. -/
def ContactInfo.run_op (c : ContactInfo) : ContactOp → ContactInfo
  | ContactOp.setEmail e => ContactInfo.set_email c e
  | ContactOp.setPhone ph => ContactInfo.set_phone c ph

/-- Apply a sequence of setter calls to a ContactInfo. -/
def ContactInfo.run_ops (c : ContactInfo) (ops : List ContactOp) : ContactInfo :=
  ops.foldl ContactInfo.run_op c

/-- Mutation steps available on a Person (the only setters the class
declares: set_age, set_height, set_name; there is no setter for the
contact reference). -/
inductive PersonOp where
  | setAge (age : Nat)
  | setHeight (height : Rat)
  | setName (name : String)
deriving Repr, DecidableEq

/-- Apply one setter call to a Person. -/
def Person.run_op (p : Person) : PersonOp → Person
  | PersonOp.setAge a => Person.set_age p a
  | PersonOp.setHeight h => Person.set_height p h
  | PersonOp.setName n => Person.set_name p n

/-- Apply a sequence of setter calls to a Person. -/
def Person.run_ops (p : Person) (ops : List PersonOp) : Person :=
  ops.foldl Person.run_op p

lemma run_op_address_eq (c : ContactInfo) (op : ContactOp) :
    ContactInfo.address (ContactInfo.run_op c op) = ContactInfo.address c := by
  cases op <;> rfl

lemma run_ops_address_eq (c : ContactInfo) (ops : List ContactOp) :
    ContactInfo.address (ContactInfo.run_ops c ops) = ContactInfo.address c := by
  induction ops generalizing c with
  | nil => rfl
  | cons op rest ih =>
      have hstep : ContactInfo.run_ops c (op :: rest) =
          ContactInfo.run_ops (ContactInfo.run_op c op) rest := rfl
      rw [hstep, ih, run_op_address_eq]

lemma run_op_contact_eq (p : Person) (op : PersonOp) :
    Person.contact (Person.run_op p op) = Person.contact p := by
  cases op <;> rfl

lemma run_ops_contact_eq (p : Person) (ops : List PersonOp) :
    Person.contact (Person.run_ops p ops) = Person.contact p := by
  induction ops generalizing p with
  | nil => rfl
  | cons op rest ih =>
      have hstep : Person.run_ops p (op :: rest) =
          Person.run_ops (Person.run_op p op) rest := rfl
      rw [hstep, ih, run_op_contact_eq]

/-- Claim C1: for every weight w, Person.calculate_bmi(w) returns
w / (height * height) when the height is strictly positive, and returns
exactly 0 when the height is less than or equal to 0; in the positive
case the divisor height * height is nonzero, so the division is always
guarded and never performed with a zero divisor. -/
theorem calculate_bmi_guard (p : Person) (w : Rat) :
    (0 < Person.height p →
      Person.calculate_bmi p w = w / (Person.height p * Person.height p) ∧
      Person.height p * Person.height p ≠ 0) ∧
    (Person.height p ≤ 0 → Person.calculate_bmi p w = 0) := by
  constructor
  · intro hpos
    have hne : Person.height p ≠ 0 := ne_of_gt hpos
    refine ⟨?_, mul_ne_zero hne hne⟩
    simp only [Person.calculate_bmi, Person.height] at *
    rw [if_neg (not_le.mpr hpos)]
  · intro hle
    simp only [Person.calculate_bmi, Person.height] at *
    rw [if_pos hle]

/-- Witness for C1: both branches evaluated on concrete persons — the
Bob Johnson person of height 7/4, and the same person after
set_height 0. -/
theorem calculate_bmi_guard_witness :
    Person.calculate_bmi person1 75 = 75 / (Person.height person1 * Person.height person1) ∧
    Person.calculate_bmi (Person.set_height person1 0) 75 = 0 := by
  have hh : Person.height person1 = 7 / 4 := rfl
  have hz : Person.height (Person.set_height person1 0) = 0 := rfl
  exact ⟨((calculate_bmi_guard person1 75).1 (by rw [hh]; norm_num)).1,
    (calculate_bmi_guard (Person.set_height person1 0) 75).2 (le_of_eq hz)⟩

/-- Claim C2: Person.is_adult() returns true iff the stored age is at
least 18; age 18 (boundary) yields true, age 25 (person1) yields true,
age 16 (person2) yields false. -/
theorem is_adult_iff_ge_18 :
    (∀ p : Person, Person.is_adult p = true ↔ 18 ≤ Person.age p) ∧
    Person.is_adult person1 = true ∧
    Person.is_adult person2 = false ∧
    Person.is_adult (Person.set_age person1 18) = true := by
  refine ⟨fun p => ?_, by decide, by decide, by decide⟩
  simp [Person.is_adult, Person.age]

/-- Claim C3: each bridge accessor function equals the corresponding
entity accessor; being pure functions of the entity value, they mutate
nothing and are total (never fail). -/
theorem bridge_getters_forward (p : Person) (c : ContactInfo) (a : Address) :
    get_person_age p = Person.age p ∧
    get_person_height p = Person.height p ∧
    get_person_name p = Person.name p ∧
    get_person_contact p = Person.contact p ∧
    get_contact_email c = ContactInfo.email c ∧
    get_contact_phone c = ContactInfo.phone c ∧
    get_contact_address c = ContactInfo.address c ∧
    get_address_street a = Address.street a ∧
    get_address_city a = Address.city a ∧
    get_address_postal_code a = Address.postal_code a :=
  ⟨rfl, rfl, rfl, rfl, rfl, rfl, rfl, rfl, rfl, rfl⟩

/-- Claim C4: constructing an Address from any three texts (empty strings
included) and reading street()/city()/postal_code() returns exactly the
supplied values, with no trimming or normalization. -/
theorem address_roundtrip (street city postal_code : String) :
    Address.street (create_address street city postal_code) = street ∧
    Address.city (create_address street city postal_code) = city ∧
    Address.postal_code (create_address street city postal_code) = postal_code :=
  ⟨rfl, rfl, rfl⟩

/-- Claim C5: for height h > 0 and weight w ≥ 0, the Person method
calculate_bmi and the analysis component's direct calculate_bmi return
the same value for identical inputs (exact agreement in the exact
rational model of double arithmetic). -/
theorem bmi_method_rust_agree (p : Person) (w : Rat)
    (hh : 0 < Person.height p) (hw : 0 ≤ w) :
    Person.calculate_bmi p w = rust_calculate_bmi w (Person.height p) := by
  simp only [Person.calculate_bmi, rust_calculate_bmi, Person.height]

/-- Witness for C5: the Bob Johnson person (height 7/4 = 1.75) at
weight 70: both functions return 1120/49 ≈ 22.857. -/
theorem bmi_method_rust_agree_witness :
    Person.calculate_bmi person1 70 = rust_calculate_bmi 70 (Person.height person1) ∧
    rust_calculate_bmi 70 (Person.height person1) = 1120 / 49 := by
  have hh : Person.height person1 = 7 / 4 := rfl
  constructor
  · exact bmi_method_rust_agree person1 70 (by rw [hh]; norm_num) (by norm_num)
  · rw [hh]
    simp only [rust_calculate_bmi]
    rw [if_neg (by norm_num : ¬((7 : Rat) / 4 ≤ 0))]
    norm_num

/-- Claim C6: the city field of the PersonInfo returned by process_person
exactly equals the city of the analyzed person's contact's address (read
through the bridge accessors), for any BMI classifier; concretely
"New York" for the Bob Johnson demo person and "Boston" for Charlie
Smith. -/
theorem process_person_city_eq (classify : Person → Int) (p : Person) :
    (process_person classify p).city =
      get_address_city (get_contact_address (get_person_contact p)) ∧
    (process_person classify person1).city = "New York" ∧
    (process_person classify person2).city = "Boston" :=
  ⟨rfl, rfl, rfl⟩

/-- Claim C7: the PersonInfo rendering helper maps bmi_category code 0 to
"Underweight", 1 to "Normal", 2 to "Overweight" and every other code to
"Unknown", and renders is_adult as "Yes" when true and "No" when false;
print_person_info emits exactly these labels on its category and adult
lines. -/
theorem render_labels :
    bmi_category_label 0 = "Underweight" ∧
    bmi_category_label 1 = "Normal" ∧
    bmi_category_label 2 = "Overweight" ∧
    (∀ code : Int, code ≠ 0 → code ≠ 1 → code ≠ 2 →
      bmi_category_label code = "Unknown") ∧
    adult_label true = "Yes" ∧
    adult_label false = "No" ∧
    (∀ info name, (print_person_info info name)[4]? =
      some ("Is adult: " ++ adult_label info.is_adult) ∧
      (print_person_info info name)[5]? =
      some ("BMI category: " ++ bmi_category_label info.bmi_category)) := by
  refine ⟨rfl, rfl, rfl, fun code h0 h1 h2 => ?_, rfl, rfl, fun info name => ⟨rfl, rfl⟩⟩
  simp [bmi_category_label, h0, h1, h2]

/-- Witness for C7: the fallback branch evaluated at the concrete
unrecognized code 7. -/
theorem render_labels_witness : bmi_category_label 7 = "Unknown" :=
  render_labels.2.2.2.1 7 (by decide) (by decide) (by decide)

/-- Claim C8: the Variant A demo orchestrator, for every choice of the
external analysis functions, runs its fixed sequence and returns exit
status 0; its straight-line body has no other return path. -/
theorem main_exit_status_zero (classify : Person → Int)
    (analyze : Person → Rat → HealthAnalysis)
    (validate : ContactInfo → Bool) :
    (cpp_main classify analyze validate).2 = 0 := rfl

/-- Claim C9: every setter changes only its own named field: the Address
setters replace only their string; the ContactInfo setters replace only
their string and leave the referenced Address unchanged; the Person
setters replace only their field and leave all others, the contact
reference included, unchanged. -/
theorem setters_frame (a : Address) (c : ContactInfo) (p : Person)
    (s : String) (n : Nat) (h : Rat) :
    Address.street (Address.set_street a s) = s ∧
    Address.city (Address.set_street a s) = Address.city a ∧
    Address.postal_code (Address.set_street a s) = Address.postal_code a ∧
    Address.city (Address.set_city a s) = s ∧
    Address.street (Address.set_city a s) = Address.street a ∧
    Address.postal_code (Address.set_city a s) = Address.postal_code a ∧
    Address.postal_code (Address.set_postal_code a s) = s ∧
    Address.street (Address.set_postal_code a s) = Address.street a ∧
    Address.city (Address.set_postal_code a s) = Address.city a ∧
    ContactInfo.email (ContactInfo.set_email c s) = s ∧
    ContactInfo.phone (ContactInfo.set_email c s) = ContactInfo.phone c ∧
    ContactInfo.address (ContactInfo.set_email c s) = ContactInfo.address c ∧
    ContactInfo.phone (ContactInfo.set_phone c s) = s ∧
    ContactInfo.email (ContactInfo.set_phone c s) = ContactInfo.email c ∧
    ContactInfo.address (ContactInfo.set_phone c s) = ContactInfo.address c ∧
    Person.age (Person.set_age p n) = n ∧
    Person.height (Person.set_age p n) = Person.height p ∧
    Person.name (Person.set_age p n) = Person.name p ∧
    Person.contact (Person.set_age p n) = Person.contact p ∧
    Person.height (Person.set_height p h) = h ∧
    Person.age (Person.set_height p h) = Person.age p ∧
    Person.name (Person.set_height p h) = Person.name p ∧
    Person.contact (Person.set_height p h) = Person.contact p ∧
    Person.name (Person.set_name p s) = s ∧
    Person.age (Person.set_name p s) = Person.age p ∧
    Person.height (Person.set_name p s) = Person.height p ∧
    Person.contact (Person.set_name p s) = Person.contact p :=
  ⟨rfl, rfl, rfl, rfl, rfl, rfl, rfl, rfl, rfl, rfl, rfl, rfl, rfl, rfl,
   rfl, rfl, rfl, rfl, rfl, rfl, rfl, rfl, rfl, rfl, rfl, rfl, rfl⟩

/-- Claim C10: the Address referenced by a ContactInfo and the ContactInfo
referenced by a Person never change after construction: for any sequence
of setter calls on the object, address()/address_ptr() and contact()
return the same referenced object that was supplied to the
constructor. -/
theorem references_stable (c : ContactInfo) (p : Person)
    (ops : List ContactOp) (qs : List PersonOp)
    (e ph : String) (a : Address) (n : Nat) (h : Rat) (s : String)
    (k : ContactInfo) :
    ContactInfo.address (ContactInfo.run_ops c ops) = ContactInfo.address c ∧
    ContactInfo.address_ptr (ContactInfo.run_ops c ops) = ContactInfo.address_ptr c ∧
    Person.contact (Person.run_ops p qs) = Person.contact p ∧
    ContactInfo.address (create_contact_info e ph a) = a ∧
    ContactInfo.address_ptr (create_contact_info e ph a) = a ∧
    Person.contact (create_person n h s k) = k :=
  ⟨run_ops_address_eq c ops, run_ops_address_eq c ops,
   run_ops_contact_eq p qs, rfl, rfl, rfl⟩

end CppApp
